import Mathlib

/-!
Verification development for the RAGPulse trace-replay benchmark.

The definitions below are a shallow embedding of the Python sources:
  example/single_local_instance/real_time_runner.py
  example/single_local_instance/metrics.py
  example/single_online_instance/online_server.py
  example/single_online_instance/metrics.py
  example/single_online_instance/preprocess_data.py
Timestamps and latency values are modelled as rationals, lists model the
Python lists, and thread loops are modelled as recursive functions over the
sequence of observations the loop makes.
-/

namespace RAGPulse

/-! ## TPOT computation (real_time_runner.py line 81, online_server.py line 89) -/

/-- In-process variant, real_time_runner.py line 81:
    tpot = (ed_time - outputs[0].metrics.arrival_time) / len(gen_tokens)
           if gen_tokens else 0.0
The token ids are kept as a list to mirror the Python truthiness test on
gen_tokens. -/
def tpotLocal (ed_time arrival_time : ℚ) (gen_tokens : List ℕ) : ℚ :=
  if gen_tokens = [] then 0 else (ed_time - arrival_time) / gen_tokens.length

/-- Remote-HTTP variant, online_server.py line 89:
    TPOT = (ed_time - receive_time) / chunk_count if chunk_count > 0 else 0.0
In this variant the reference point for the request arriving at the backend is
receive_time, the timestamp captured when the request was enqueued. -/
def tpotOnline (ed_time receive_time : ℚ) (chunk_count : ℕ) : ℚ :=
  if chunk_count > 0 then (ed_time - receive_time) / chunk_count else 0

/-- The TPOT formula as the specification states it: stream completion time
minus arrival time, divided by the output token count when positive, and 0.0
when zero tokens were produced. -/
def specTPOT (completion arrival : ℚ) (n : ℕ) : ℚ :=
  if 0 < n then (completion - arrival) / n else 0

/-! ## Metrics sinks -/

/-- In-process variant, metrics.py lines 20-21:
    avg_ttft = sum(ttfts) / len(ttfts) if ttfts else 0.0
    avg_tpot = sum(tpots) / len(tpots) if tpots else 0.0 -/
def aggregate_metrics (ttfts tpots : List ℚ) : ℚ × ℚ :=
  (if ttfts = [] then 0 else ttfts.sum / ttfts.length,
   if tpots = [] then 0 else tpots.sum / tpots.length)

/-- JSON values appearing in the metrics summary written by the remote-HTTP
variant. Args is an uninterpreted key-value object. -/
inductive JVal where
  | num (q : ℚ)
  | null
  | arr (l : List ℚ)
  | obj (kvs : List (String × String))
deriving DecidableEq

/-- Mutable state of RAGPulseMetrics (single_online_instance/metrics.py):
the two sample lists, the output location chosen at construction, and the
stored run arguments. -/
structure MetricsState where
  TTFTs : List ℚ
  TPOTs : List ℚ
  metric_dir : String
  metric_name : String
  args : List (String × String)
deriving DecidableEq

/-- The summary object built in RAGPulseMetrics.save_metrics
(metrics.py lines 52-58), as an ordered key-value list:
    "TTFTs": self.TTFTs, "TPOTs": self.TPOTs,
    "Average_TTFT": sum/len if len>0 else None,
    "Average_TPOT": sum/len if len>0 else None, "Args": self.args -/
def metrics_summary (m : MetricsState) : List (String × JVal) :=
  [("TTFTs", JVal.arr m.TTFTs),
   ("TPOTs", JVal.arr m.TPOTs),
   ("Average_TTFT",
     if m.TTFTs.length > 0 then JVal.num (m.TTFTs.sum / m.TTFTs.length) else JVal.null),
   ("Average_TPOT",
     if m.TPOTs.length > 0 then JVal.num (m.TPOTs.sum / m.TPOTs.length) else JVal.null),
   ("Args", JVal.obj m.args)]

/-- RAGPulseMetrics.save_metrics: builds the summary and writes it to the
file; it assigns no attribute, so the state component is returned unchanged.
The first component is the serialized content, the second the state after the
call. -/
def save_metrics (m : MetricsState) : List (String × JVal) × MetricsState :=
  (metrics_summary m, m)

/-- metrics.py line 11. -/
def DEFAULT_METRIC_NAMES : List String :=
  ["TTFT", "TPOT", "Average_TTFT", "Average_TPOT"]

/-- One iteration of the loop in RAGPulseMetrics.add_metrics
(metrics.py lines 40-47). The dictionary argument is modelled as an
optional map from key to stored value, where the stored value is itself optional
(None in Python). Only the TTFT and TPOT branches mutate state; the two
Average names are looked up by the membership test but have no branch. -/
def add_metric_step (d : String → Option (Option ℚ)) (m : MetricsState)
    (name : String) : MetricsState :=
  match d name with
  | none => m
  | some v =>
    if name = "TTFT" then
      match v with
      | some x => { m with TTFTs := m.TTFTs ++ [x] }
      | none => m
    else if name = "TPOT" then
      match v with
      | some x => { m with TPOTs := m.TPOTs ++ [x] }
      | none => m
    else m

/-- RAGPulseMetrics.add_metrics: iterate DEFAULT_METRIC_NAMES in order and
apply the per-name step. -/
def add_metrics (m : MetricsState) (d : String → Option (Option ℚ)) : MetricsState :=
  DEFAULT_METRIC_NAMES.foldl (add_metric_step d) m

/-! ## Executor loops -/

/-- Outcome of one backend call as seen by the executor: either a successful
streaming call yielding a TTFT and a TPOT sample, or a raised exception
(timeout, malformed response, connection error). -/
inductive BackendResult where
  | ok (ttft tpot : ℚ)
  | err
deriving DecidableEq

/-- The processing loop of _simulate_real_time_response
(real_time_runner.py lines 70-94) restricted to the requests it dequeues, in
FIFO order, with each dequeue paired with the outcome of its llm.generate
call. The function body has no try/except: a raised exception propagates out
of the loop, so the local TTFTs and TPOTs lists are never returned. An error
value models that propagation. -/
def localExecutorRun : List BackendResult → List ℚ → List ℚ →
    Except Unit (List ℚ × List ℚ)
  | [], ttfts, tpots => Except.ok (ttfts, tpots)
  | BackendResult.ok t p :: rest, ttfts, tpots =>
      localExecutorRun rest (ttfts ++ [t]) (tpots ++ [p])
  | BackendResult.err :: _, _, _ => Except.error ()

/-- Number of requests the in-process executor dequeues before the loop
stops: all of them when every call succeeds, and only the requests up to and
including the first failing one otherwise. -/
def localExecutorDequeued : List BackendResult → ℕ
  | [] => 0
  | BackendResult.ok _ _ :: rest => localExecutorDequeued rest + 1
  | BackendResult.err :: _ => 1

/-- An item received from the request queue by OnlineServer.request_worker:
either a queued request (paired with the outcome its response call will
have) or the OnlineServerEndSignal sentinel. -/
inductive QItem where
  | req (r : BackendResult)
  | endSignal
deriving DecidableEq

/-- How a run of OnlineServer.request_worker ends, together with the samples
that were pushed into the shared metrics sink before it ended: finished
normally on the end signal, died on an uncaught exception from
OnlineServer.response, or blocked forever in queue.get because the modelled
item sequence was exhausted without an end signal. -/
inductive WorkerOutcome where
  | finished (ttfts tpots : List ℚ)
  | crashed (ttfts tpots : List ℚ)
  | blocked (ttfts tpots : List ℚ)
deriving DecidableEq

/-- OnlineServer.request_worker (online_server.py lines 45-55) over the FIFO
sequence of items it will receive from the queue. There is no try/except
around self.response, so a raised exception kills the worker thread. -/
def requestWorker : List QItem → List ℚ → List ℚ → WorkerOutcome
  | [], ttfts, tpots => WorkerOutcome.blocked ttfts tpots
  | QItem.endSignal :: _, ttfts, tpots => WorkerOutcome.finished ttfts tpots
  | QItem.req (BackendResult.ok t p) :: rest, ttfts, tpots =>
      requestWorker rest (ttfts ++ [t]) (tpots ++ [p])
  | QItem.req BackendResult.err :: _, ttfts, tpots =>
      WorkerOutcome.crashed ttfts tpots

/-! ## The in-process executor with an interleaved producer (termination
protocol, real_time_runner.py lines 70-94) -/

/-- Executor state for the termination-protocol model. Each queued request
is an abstract id paired with the outcome its llm.generate call will have.
processed records the ids whose generate call completed and whose samples
were appended; enqueuedAll is a ghost field recording the id of every
request the producer ever appended, in order. -/
structure ExecState where
  queue : List (ℕ × BackendResult)
  signalSeen : Bool
  processed : List ℕ
  enqueuedAll : List ℕ
deriving DecidableEq

/-- What the environment (the producer thread and the pipe) did before one
iteration of the executor loop: the requests appended to the shared list
since the previous iteration, and whether the IS_END sentinel is sitting in
the pipe when the executor polls it. -/
structure EnvRound where
  arrivals : List (ℕ × BackendResult)
  signalInPipe : Bool
deriving DecidableEq

/-- How one iteration of the executor loop body ends: fall through to the
next iteration, exit through the break statement, or exit through an
uncaught exception raised by llm.generate. -/
inductive StepResult where
  | next
  | broke
  | raised
deriving DecidableEq

/-- One iteration of the while-True body of _simulate_real_time_response:
if the queue is non-empty, pop the head and run llm.generate on it — when
the call succeeds the id is processed and the samples recorded, and when it
raises the loop is aborted with the pop already done and nothing recorded,
since the body has no try/except; on an empty queue, poll the pipe, record
the sentinel if present, and break exactly when the sentinel has been seen
and the queue is empty. -/
def execIter (s : ExecState) (sig : Bool) : ExecState × StepResult :=
  match s.queue with
  | (r, BackendResult.ok _ _) :: rest =>
      ({ s with queue := rest, processed := s.processed ++ [r] },
       StepResult.next)
  | (_, BackendResult.err) :: rest =>
      ({ s with queue := rest }, StepResult.raised)
  | [] =>
      let seen := s.signalSeen || sig
      ({ s with signalSeen := seen },
       if seen then StepResult.broke else StepResult.next)

/-- Effect of one environment round on the shared queue: the producer
appends its arrivals (real_time_runner.py line 41); the ghost field records
their ids. -/
def envApply (s : ExecState) (r : EnvRound) : ExecState :=
  { s with queue := s.queue ++ r.arrivals,
           enqueuedAll := s.enqueuedAll ++ r.arrivals.map Prod.fst }

/-- How a modelled run of the in-process executor ends: the schedule was
exhausted with the loop still running, the loop exited through its break
statement, or it exited through an uncaught llm.generate exception. -/
inductive RunResult where
  | stillRunning
  | broke (sf : ExecState)
  | raised (sf : ExecState)
deriving DecidableEq

/-- Run the executor loop against a finite schedule of environment rounds:
before each iteration the arrivals of that round are appended to the queue,
then one iteration executes; the loop stops at a break or at an uncaught
exception. -/
def execRun : List EnvRound → ExecState → RunResult
  | [], _ => RunResult.stillRunning
  | r :: rest, s =>
      match execIter (envApply s r) r.signalInPipe with
      | (s2, StepResult.broke) => RunResult.broke s2
      | (s2, StepResult.raised) => RunResult.raised s2
      | (s2, StepResult.next) => execRun rest s2

/-! ## Arrival scheduler (real_time_runner.py lines 35-46,
online_server.py lines 113-125) -/

/-- The scheduler loop common to both variants, driven by the list of
successive time.time() readings it makes (one reading per loop iteration)
and by the list of per-record thresholds it compares the elapsed time
against. The loop keeps a cursor idx; when the threshold of record idx is
reached it enqueues (current reading, idx) and advances the cursor,
otherwise it sleeps and polls again; it exits when the cursor passes the
last record. Returns the enqueue events in order. -/
def schedLoop (thr : List ℚ) (t0 : ℚ) : List ℚ → ℕ → List (ℚ × ℕ)
  | [], _ => []
  | c :: cs, idx =>
      match thr[idx]? with
      | none => []
      | some t =>
          if t ≤ c - t0 then (c, idx) :: schedLoop thr t0 cs (idx + 1)
          else schedLoop thr t0 cs idx

/-- In-process variant thresholds, real_time_runner.py line 39:
    current_time - start_time >= int(traces[idx]["timestamp"]) // 10
with a hardcoded scale factor 10 and Python integer floor division. -/
def localSchedThresholds (ts : List ℕ) : List ℚ :=
  ts.map fun t : ℕ => ((t / 10 : ℕ) : ℚ)

/-- Remote-HTTP variant thresholds, online_server.py line 120:
    current_time - start_time >= int(traces[trace_idx]["timestamp"]) / time_scale_factor
with true division by the configured scale factor. -/
def onlineSchedThresholds (ts : List ℕ) (k : ℚ) : List ℚ :=
  ts.map fun t : ℕ => (t : ℚ) / k

/-! ## OnlineServer shutdown (online_server.py lines 127-142) -/

/-- The parts of the OnlineServer state that OnlineServer.close reads or
writes: whether self.request_thread is not None, how many times the
OnlineServerEndSignal sentinel has been put on the queue, and how many times
save_metrics has run. -/
structure ServerState where
  requestThreadPresent : Bool
  endSignalsSent : ℕ
  metricsSaved : ℕ
deriving DecidableEq

/-- OnlineServer.close: when self.request_thread is not None it enqueues the
end signal, joins the thread and saves the metrics. It never assigns
self.request_thread = None, so requestThreadPresent is unchanged. -/
def close (s : ServerState) : ServerState :=
  if s.requestThreadPresent then
    { s with endSignalsSent := s.endSignalsSent + 1,
             metricsSaved := s.metricsSaved + 1 }
  else s

/-- The destructor OnlineServer.__del__ simply calls self.close(). -/
def delServer (s : ServerState) : ServerState := close s

/-! ## PreprocessData.simulate_token_lists (preprocess_data.py lines 56-64) -/

/-- PreprocessData.simulate_token_lists. The call random.randint(0,
vocab_size - 1) is modelled by an oracle applied to the draw index; its
contract (result between the two bounds when they are ordered) is assumed
where needed. Arguments are Python ints, hence integers here. -/
def simulate_token_lists (rand : ℤ → ℤ → ℕ → ℤ)
    (token_length vocab_size : ℤ) : List ℤ :=
  if token_length ≤ 0 ∨ vocab_size ≤ 0 then []
  else (List.range token_length.toNat).map fun i => rand 0 (vocab_size - 1) i

end RAGPulse

namespace RAGPulse

/-! ## Claim C1 -/

/-- Claim C1: in both variants the recorded TPOT is exactly the
specification formula, namely the elapsed time from the arrival reference
point to stream completion divided by the number of output tokens when that
number is positive, and 0.0 when zero output tokens were produced. -/
theorem tpot_matches_spec_formula (ed arrival receive : ℚ)
    (gen_tokens : List ℕ) (chunk_count : ℕ) :
    tpotLocal ed arrival gen_tokens = specTPOT ed arrival gen_tokens.length ∧
    tpotOnline ed receive chunk_count = specTPOT ed receive chunk_count := by
  constructor
  · unfold tpotLocal specTPOT
    rcases gen_tokens with _ | ⟨t, ts⟩ <;> simp
  · unfold tpotOnline specTPOT
    rfl

/-! ## Helper lemmas for the executor loops -/

lemma localExecutorRun_all_ok (okts : List (ℚ × ℚ)) (ts ps : List ℚ) :
    localExecutorRun (okts.map fun x => BackendResult.ok x.1 x.2) ts ps =
      Except.ok (ts ++ okts.map Prod.fst, ps ++ okts.map Prod.snd) := by
  induction okts generalizing ts ps with
  | nil => simp [localExecutorRun]
  | cons hd tl ih =>
      simp only [List.map_cons, localExecutorRun, ih, List.append_assoc,
        List.singleton_append]

lemma localExecutorRun_err (okts : List (ℚ × ℚ)) (post : List BackendResult)
    (ts ps : List ℚ) :
    localExecutorRun ((okts.map fun x => BackendResult.ok x.1 x.2) ++
      BackendResult.err :: post) ts ps = Except.error () := by
  induction okts generalizing ts ps with
  | nil => simp [localExecutorRun]
  | cons hd tl ih =>
      simp only [List.map_cons, List.cons_append, localExecutorRun,
        List.append_eq, ih]

lemma localExecutorDequeued_err (okts : List (ℚ × ℚ)) (post : List BackendResult) :
    localExecutorDequeued ((okts.map fun x => BackendResult.ok x.1 x.2) ++
      BackendResult.err :: post) = okts.length + 1 := by
  induction okts with
  | nil => simp [localExecutorDequeued]
  | cons hd tl ih =>
      simp only [List.map_cons, List.cons_append, localExecutorDequeued,
        List.append_eq, ih, List.length_cons]

lemma requestWorker_all_ok (okts : List (ℚ × ℚ)) (rest : List QItem)
    (ts ps : List ℚ) :
    requestWorker ((okts.map fun x => QItem.req (BackendResult.ok x.1 x.2)) ++ rest)
      ts ps =
    requestWorker rest (ts ++ okts.map Prod.fst) (ps ++ okts.map Prod.snd) := by
  induction okts generalizing ts ps with
  | nil => simp
  | cons hd tl ih =>
      simp only [List.map_cons, List.cons_append, requestWorker,
        List.append_eq, ih, List.append_assoc, List.singleton_append,
        List.nil_append]

lemma envApply_inv (s : ExecState) (r : EnvRound)
    (h : s.processed ++ s.queue.map Prod.fst = s.enqueuedAll) :
    (envApply s r).processed ++ (envApply s r).queue.map Prod.fst =
      (envApply s r).enqueuedAll := by
  simp only [envApply, List.map_append]
  rw [← List.append_assoc, h]

lemma execIter_next_inv (s : ExecState) (sig : Bool) (s2 : ExecState)
    (h : s.processed ++ s.queue.map Prod.fst = s.enqueuedAll)
    (hstep : execIter s sig = (s2, StepResult.next)) :
    s2.processed ++ s2.queue.map Prod.fst = s2.enqueuedAll := by
  rcases hq : s.queue with _ | ⟨⟨r, br⟩, rest⟩
  · rw [hq] at h
    cases hseen : s.signalSeen || sig with
    | false =>
        simp [execIter, hq, hseen] at hstep
        subst hstep
        simpa using h
    | true => simp [execIter, hq, hseen] at hstep
  · rw [hq] at h
    cases br with
    | ok t p =>
        simp only [execIter, hq, Prod.mk.injEq] at hstep
        rcases hstep with ⟨rfl, -⟩
        simp only [List.map_cons] at h ⊢
        rw [List.append_assoc]
        simpa using h
    | err => simp [execIter, hq] at hstep

lemma execIter_broke_state (s : ExecState) (sig : Bool) (s2 : ExecState)
    (h : s.processed ++ s.queue.map Prod.fst = s.enqueuedAll)
    (hstep : execIter s sig = (s2, StepResult.broke)) :
    s2.signalSeen = true ∧ s2.queue = [] ∧ s2.processed = s2.enqueuedAll := by
  rcases hq : s.queue with _ | ⟨⟨r, br⟩, rest⟩
  · rw [hq] at h
    cases hseen : s.signalSeen || sig with
    | false => simp [execIter, hq, hseen] at hstep
    | true =>
        simp [execIter, hq, hseen] at hstep
        subst hstep
        exact ⟨rfl, rfl, by simpa using h⟩
  · cases br with
    | ok t p => simp [execIter, hq] at hstep
    | err => simp [execIter, hq] at hstep

lemma execRun_broke (rounds : List EnvRound) (s0 : ExecState)
    (hinv : s0.processed ++ s0.queue.map Prod.fst = s0.enqueuedAll)
    (sf : ExecState) (hrun : execRun rounds s0 = RunResult.broke sf) :
    sf.signalSeen = true ∧ sf.queue = [] ∧ sf.processed = sf.enqueuedAll := by
  induction rounds generalizing s0 with
  | nil => simp [execRun] at hrun
  | cons r rest ih =>
      rw [execRun] at hrun
      rcases hi : execIter (envApply s0 r) r.signalInPipe with ⟨s2, step⟩
      rw [hi] at hrun
      have hinv1 := envApply_inv s0 r hinv
      cases step with
      | next => exact ih s2 (execIter_next_inv _ _ _ hinv1 hi) hrun
      | broke =>
          simp only [RunResult.broke.injEq] at hrun
          subst hrun
          exact execIter_broke_state _ _ _ hinv1 hi
      | raised => simp at hrun

lemma requestWorker_finished (items : List QItem) (ts ps tsf psf : List ℚ)
    (h : requestWorker items ts ps = WorkerOutcome.finished tsf psf) :
    ∃ (okts : List (ℚ × ℚ)) (rest : List QItem),
      items = (okts.map fun x => QItem.req (BackendResult.ok x.1 x.2)) ++
        QItem.endSignal :: rest ∧
      tsf = ts ++ okts.map Prod.fst ∧ psf = ps ++ okts.map Prod.snd := by
  induction items generalizing ts ps with
  | nil => simp [requestWorker] at h
  | cons it rest ih =>
      cases it with
      | endSignal =>
          simp only [requestWorker, WorkerOutcome.finished.injEq] at h
          exact ⟨[], rest, by simp, by simp [h.1], by simp [h.2]⟩
      | req r =>
          cases r with
          | ok t p =>
              simp only [requestWorker] at h
              obtain ⟨okts, rest2, heq, hts, hps⟩ := ih (ts ++ [t]) (ps ++ [p]) h
              refine ⟨(t, p) :: okts, rest2, ?_, ?_, ?_⟩
              · simp [heq]
              · simp [hts]
              · simp [hps]
          | err => simp [requestWorker] at h

/-! ## Helper lemmas for the scheduler loop -/

lemma schedLoop_snd_range (thr : List ℚ) (t0 : ℚ) (clock : List ℚ) (i : ℕ) :
    (schedLoop thr t0 clock i).map Prod.snd =
      List.range' i (schedLoop thr t0 clock i).length := by
  induction clock generalizing i with
  | nil => simp [schedLoop]
  | cons c cs ih =>
      rw [schedLoop]
      cases h : thr[i]? with
      | none => simp
      | some t =>
          by_cases hle : t ≤ c - t0
          · simp only [hle, if_true, List.map_cons, List.length_cons,
              List.range'_succ, ih]
          · simp only [hle, if_false, ih]

lemma schedLoop_threshold_le (thr : List ℚ) (t0 : ℚ) (clock : List ℚ) (i : ℕ) :
    ∀ p ∈ schedLoop thr t0 clock i, ∃ t, thr[p.2]? = some t ∧ t ≤ p.1 - t0 := by
  induction clock generalizing i with
  | nil => simp [schedLoop]
  | cons c cs ih =>
      rw [schedLoop]
      cases h : thr[i]? with
      | none => simp
      | some t =>
          by_cases hle : t ≤ c - t0
          · simp only [hle, if_true, List.mem_cons]
            rintro p (rfl | hp)
            · exact ⟨t, h, hle⟩
            · exact ih (i + 1) p hp
          · simp only [hle, if_false]
            exact ih i

/-! ## Claim C2 -/

/-- Claim C2 counterexample: with a queue holding requests 1 and 2 where the
backend call for request 1 raises, the in-process executor loop propagates
the exception (no sample list is returned at all) and dequeues only one
item, so request 2 is never processed and the sample count is 0, not the
claimed 1 successful call; the remote-HTTP worker likewise dies with no
sample recorded before it reaches request 2. -/
theorem executor_failure_crashes_cex :
    localExecutorRun [BackendResult.err, BackendResult.ok 1 1] [] [] =
      Except.error () ∧
    localExecutorDequeued [BackendResult.err, BackendResult.ok 1 1] = 1 ∧
    requestWorker
      [QItem.req BackendResult.err, QItem.req (BackendResult.ok 1 1),
       QItem.endSignal] [] [] = WorkerOutcome.crashed [] [] :=
  ⟨rfl, rfl, rfl⟩

/-- Claim C2 amended: a failing backend call is not caught, so it aborts the
executor. In the in-process variant the loop returns all samples exactly
when every call succeeds; when the call for some request raises, the loop
errors out after dequeuing only the requests up to and including the failing
one, losing the collected samples. In the remote-HTTP variant the worker
thread dies at the failing request, keeping only the samples recorded
before it, and never reaches the next queued item. -/
theorem executor_failure_aborts :
    (∀ okts : List (ℚ × ℚ),
      localExecutorRun (okts.map fun x => BackendResult.ok x.1 x.2) [] [] =
        Except.ok (okts.map Prod.fst, okts.map Prod.snd)) ∧
    (∀ (okts : List (ℚ × ℚ)) (post : List BackendResult),
      localExecutorRun ((okts.map fun x => BackendResult.ok x.1 x.2) ++
        BackendResult.err :: post) [] [] = Except.error () ∧
      localExecutorDequeued ((okts.map fun x => BackendResult.ok x.1 x.2) ++
        BackendResult.err :: post) = okts.length + 1) ∧
    (∀ (okts : List (ℚ × ℚ)) (post : List QItem),
      requestWorker ((okts.map fun x => QItem.req (BackendResult.ok x.1 x.2)) ++
        QItem.req BackendResult.err :: post) [] [] =
        WorkerOutcome.crashed (okts.map Prod.fst) (okts.map Prod.snd)) := by
  refine ⟨?_, ?_, ?_⟩
  · intro okts
    simpa using localExecutorRun_all_ok okts [] []
  · intro okts post
    exact ⟨localExecutorRun_err okts post [] [],
      localExecutorDequeued_err okts post⟩
  · intro okts post
    rw [requestWorker_all_ok okts (QItem.req BackendResult.err :: post) [] []]
    simp [requestWorker]

/-! ## Claim C4 -/

/-- Claim C4 is the intended behavior but the code violates it:
OnlineServer.close guards on self.request_thread being not None yet never
resets it to None, so the documented usage pattern (explicit close, then the
destructor calling close again) puts the OnlineServerEndSignal on the queue
twice, and also saves the metrics twice. -/
theorem close_then_destructor_double_signal :
    (delServer (close ⟨true, 0, 0⟩)).endSignalsSent = 2 ∧
    (delServer (close ⟨true, 0, 0⟩)).metricsSaved = 2 :=
  ⟨rfl, rfl⟩

/-! ## Claim C5 -/

/-- Claim C5 counterexample: in the in-process variant, with the single
trace timestamp 15 and scale factor 10, the threshold is the floor division
15 // 10 = 1, so the record is enqueued at elapsed time 1 second, strictly
before t0 + 15 / 10 = 1.5 seconds; the claimed lower bound t0 +
timestamp / k is violated. -/
theorem scheduler_timing_cex :
    schedLoop (localSchedThresholds [15]) 0 [1] 0 = [(1, 0)] ∧
    (1 : ℚ) - 0 < ((15 : ℕ) : ℚ) / 10 ∧
    [15].Pairwise (fun a b : ℕ => a ≤ b) := by
  refine ⟨?_, by norm_num, by simp⟩
  norm_num [schedLoop, localSchedThresholds]

/-- Claim C5 amended: for every trace sequence that is non-decreasing in
timestamp, both schedulers enqueue the records in exactly the input index
order (the emitted index sequence is an initial run 0, 1, 2, ...; ties
broken by original order), and record i is never enqueued before wall-clock
time t0 + timestamp_i / k in the remote-HTTP variant, respectively before
t0 + (timestamp_i // 10) in the in-process variant, whose scale factor is a
hardcoded 10 applied with integer floor division. -/
theorem scheduler_order_and_timing :
    (∀ (thr : List ℚ) (t0 : ℚ) (clock : List ℚ),
      (schedLoop thr t0 clock 0).map Prod.snd =
        List.range' 0 (schedLoop thr t0 clock 0).length) ∧
    (∀ (ts : List ℕ) (k t0 : ℚ) (clock : List ℚ),
      ts.Pairwise (fun a b : ℕ => a ≤ b) →
      ∀ p ∈ schedLoop (onlineSchedThresholds ts k) t0 clock 0,
        ∀ v, ts[p.2]? = some v → (v : ℚ) / k ≤ p.1 - t0) ∧
    (∀ (ts : List ℕ) (t0 : ℚ) (clock : List ℚ),
      ts.Pairwise (fun a b : ℕ => a ≤ b) →
      ∀ p ∈ schedLoop (localSchedThresholds ts) t0 clock 0,
        ∀ v, ts[p.2]? = some v → ((v / 10 : ℕ) : ℚ) ≤ p.1 - t0) := by
  refine ⟨fun thr t0 clock => schedLoop_snd_range thr t0 clock 0, ?_, ?_⟩
  · intro ts k t0 clock _ p hp v hv
    obtain ⟨t, ht, hle⟩ :=
      schedLoop_threshold_le (onlineSchedThresholds ts k) t0 clock 0 p hp
    simp only [onlineSchedThresholds, List.getElem?_map, hv,
      Option.map_some', Option.some.injEq] at ht
    exact ht.trans_le hle
  · intro ts t0 clock _ p hp v hv
    obtain ⟨t, ht, hle⟩ :=
      schedLoop_threshold_le (localSchedThresholds ts) t0 clock 0 p hp
    simp only [localSchedThresholds, List.getElem?_map, hv,
      Option.map_some', Option.some.injEq] at ht
    exact ht.trans_le hle

/-- Witness for the amended claim C5: a two-record trace with timestamps 0
and 10, remote variant with scale factor 10, clock readings 0 and 1: both
records are enqueued, in index order, and the second one no earlier than
10 / 10 = 1 second after t0 = 0. -/
theorem scheduler_order_and_timing_witness :
    (schedLoop (onlineSchedThresholds [0, 10] 10) 0 [0, 1] 0).map Prod.snd =
      List.range'
        0 (schedLoop (onlineSchedThresholds [0, 10] 10) 0 [0, 1] 0).length ∧
    ((10 : ℕ) : ℚ) / 10 ≤ (1 : ℚ) - 0 :=
  ⟨scheduler_order_and_timing.1 (onlineSchedThresholds [0, 10] 10) 0 [0, 1],
   scheduler_order_and_timing.2.1 [0, 10] 10 0 [0, 1] (by simp) (1, 1)
     (by norm_num [schedLoop, onlineSchedThresholds]) 10 rfl⟩

/-! ## Claim C6 -/

/-- Claim C6 counterexample: the claim does not hold for every run. In a
run whose first request makes llm.generate raise, the in-process executor
loop exits by uncaught exception with the end-of-stream sentinel never
observed and request 1 still sitting in the queue, unprocessed; likewise
the remote-HTTP worker dies on a failing response call without ever
observing the end signal that is queued behind it. -/
theorem executor_crash_exit_cex :
    execRun [⟨[(0, BackendResult.err), (1, BackendResult.ok 1 1)], false⟩]
        ⟨[], false, [], []⟩ =
      RunResult.raised ⟨[(1, BackendResult.ok 1 1)], false, [], [0, 1]⟩ ∧
    (⟨[(1, BackendResult.ok 1 1)], false, [], [0, 1]⟩ : ExecState).signalSeen =
      false ∧
    (⟨[(1, BackendResult.ok 1 1)], false, [], [0, 1]⟩ : ExecState).queue ≠ [] ∧
    requestWorker [QItem.req BackendResult.err, QItem.endSignal] [] [] =
      WorkerOutcome.crashed [] [] := by
  refine ⟨rfl, rfl, by simp, rfl⟩

/-- Claim C6 amended: for every run in which the executor terminates
normally, termination happens only after the EndOfStreamSignal has been
observed and the request queue is empty, and every request enqueued before
then has been dequeued and processed: whenever the in-process loop exits
through its break statement, the sentinel has been seen, the queue is empty
and the processed requests are exactly the requests the producer ever
enqueued, in order; whenever the remote-HTTP worker terminates, the items
it consumed were successful requests followed by the end signal, with one
sample pair recorded per request before the signal. A run with a failing
backend call instead exits by uncaught exception, possibly with the signal
unseen and requests still queued. -/
theorem executor_normal_exit_signal_and_drain :
    (∀ (rounds : List EnvRound) (s0 sf : ExecState),
      s0.processed ++ s0.queue.map Prod.fst = s0.enqueuedAll →
      execRun rounds s0 = RunResult.broke sf →
      sf.signalSeen = true ∧ sf.queue = [] ∧ sf.processed = sf.enqueuedAll) ∧
    (∀ (items : List QItem) (tsf psf : List ℚ),
      requestWorker items [] [] = WorkerOutcome.finished tsf psf →
      ∃ (okts : List (ℚ × ℚ)) (rest : List QItem),
        items = (okts.map fun x => QItem.req (BackendResult.ok x.1 x.2)) ++
          QItem.endSignal :: rest ∧
        tsf = okts.map Prod.fst ∧ psf = okts.map Prod.snd) := by
  refine ⟨fun rounds s0 sf hinv hrun => execRun_broke rounds s0 hinv sf hrun, ?_⟩
  intro items tsf psf h
  obtain ⟨okts, rest, heq, hts, hps⟩ := requestWorker_finished items [] [] tsf psf h
  exact ⟨okts, rest, heq, by simpa using hts, by simpa using hps⟩

/-- Witness for the amended claim C6: a run in which the producer appends
request 7 (whose backend call succeeds) in round one and the sentinel
becomes visible in round two; the executor breaks with the signal seen, the
queue drained, and request 7 processed; the remote worker finishing on one
successful request and the end signal has consumed exactly that shape of
item sequence. -/
theorem executor_normal_exit_witness :
    execRun [⟨[(7, BackendResult.ok 1 2)], false⟩, ⟨[], true⟩]
        ⟨[], false, [], []⟩ = RunResult.broke ⟨[], true, [7], [7]⟩ ∧
    ((⟨[], true, [7], [7]⟩ : ExecState).signalSeen = true ∧
     (⟨[], true, [7], [7]⟩ : ExecState).queue = [] ∧
     (⟨[], true, [7], [7]⟩ : ExecState).processed =
       (⟨[], true, [7], [7]⟩ : ExecState).enqueuedAll) ∧
    (∃ (okts : List (ℚ × ℚ)) (rest : List QItem),
      ([QItem.req (BackendResult.ok 1 2), QItem.endSignal] : List QItem) =
        (okts.map fun x => QItem.req (BackendResult.ok x.1 x.2)) ++
          QItem.endSignal :: rest ∧
      ([1] : List ℚ) = okts.map Prod.fst ∧ ([2] : List ℚ) = okts.map Prod.snd) :=
  ⟨rfl,
   executor_normal_exit_signal_and_drain.1
     [⟨[(7, BackendResult.ok 1 2)], false⟩, ⟨[], true⟩]
     ⟨[], false, [], []⟩ ⟨[], true, [7], [7]⟩ rfl rfl,
   executor_normal_exit_signal_and_drain.2
     [QItem.req (BackendResult.ok 1 2), QItem.endSignal] [1] [2] rfl⟩

/-! ## Helper lemma for add_metrics -/

lemma add_metrics_eval (m : MetricsState) (d : String → Option (Option ℚ)) :
    add_metrics m d =
      { m with
        TTFTs := m.TTFTs ++
          (match d "TTFT" with | some (some x) => [x] | _ => []),
        TPOTs := m.TPOTs ++
          (match d "TPOT" with | some (some x) => [x] | _ => []) } := by
  rcases h1 : d "TTFT" with _ | (_ | x) <;>
  rcases h2 : d "TPOT" with _ | (_ | y) <;>
  rcases h3 : d "Average_TTFT" with _ | u <;>
  rcases h4 : d "Average_TPOT" with _ | w <;>
    simp [add_metrics, DEFAULT_METRIC_NAMES, add_metric_step, h1, h2, h3, h4]

/-! ## Claim C3 -/

/-- Claim C3 counterexample: the in-process aggregation of an empty sample
sequence is the pair of 0.0 averages, not null: aggregate_metrics has no
null in its result at all and returns 0.0 for both averages on empty
input, contradicting the claim that both variants yield null. -/
theorem aggregate_metrics_empty_is_zero :
    aggregate_metrics [] [] = (0, 0) :=
  rfl

/-- Claim C3 amended: summarizing empty sample sequences never raises a
zero-division failure, but the fallback differs per variant: the remote-HTTP
summary has null for Average_TTFT and Average_TPOT when the corresponding
list is empty, while the in-process aggregation returns 0.0 averages, not
null. -/
theorem empty_sample_averages (m : MetricsState)
    (h1 : m.TTFTs = []) (h2 : m.TPOTs = []) :
    (metrics_summary m).lookup "Average_TTFT" = some JVal.null ∧
    (metrics_summary m).lookup "Average_TPOT" = some JVal.null ∧
    aggregate_metrics m.TTFTs m.TPOTs = (0, 0) := by
  refine ⟨?_, ?_, ?_⟩ <;>
    simp [metrics_summary, aggregate_metrics, h1, h2, List.lookup]

/-- Witness for the amended claim C3 at a sink with no recorded samples. -/
theorem empty_sample_averages_witness :
    (metrics_summary ⟨[], [], "m", "f", []⟩).lookup "Average_TTFT" =
      some JVal.null ∧
    (metrics_summary ⟨[], [], "m", "f", []⟩).lookup "Average_TPOT" =
      some JVal.null ∧
    aggregate_metrics (MetricsState.TTFTs ⟨[], [], "m", "f", []⟩)
      (MetricsState.TPOTs ⟨[], [], "m", "f", []⟩) = (0, 0) :=
  empty_sample_averages ⟨[], [], "m", "f", []⟩ rfl rfl

/-! ## Claim C7 -/

/-- Claim C7: the persisted summary is a JSON object with exactly the keys
TTFTs, TPOTs, Average_TTFT, Average_TPOT and Args in that order, and each
average equals the arithmetic mean of its non-empty sample list; on TTFT
samples 1.0, 2.0, 3.0 the average is 2.0. -/
theorem metrics_summary_shape (m : MetricsState) :
    (metrics_summary m).map Prod.fst =
      ["TTFTs", "TPOTs", "Average_TTFT", "Average_TPOT", "Args"] ∧
    (m.TTFTs ≠ [] → (metrics_summary m).lookup "Average_TTFT" =
      some (JVal.num (m.TTFTs.sum / m.TTFTs.length))) ∧
    (m.TPOTs ≠ [] → (metrics_summary m).lookup "Average_TPOT" =
      some (JVal.num (m.TPOTs.sum / m.TPOTs.length))) ∧
    (m.TTFTs = [1, 2, 3] → (metrics_summary m).lookup "Average_TTFT" =
      some (JVal.num 2)) := by
  refine ⟨rfl, ?_, ?_, ?_⟩
  · intro h
    simp [metrics_summary, List.lookup, List.length_pos, h]
  · intro h
    simp [metrics_summary, List.lookup, List.length_pos, h]
  · intro h
    simp [metrics_summary, List.lookup, h]
    norm_num

/-- Witness for claim C7 at a sink holding TTFT samples 1, 2, 3 and the
single TPOT sample 5. -/
theorem metrics_summary_shape_witness :
    (metrics_summary ⟨[1, 2, 3], [5], "m", "f", []⟩).map Prod.fst =
      ["TTFTs", "TPOTs", "Average_TTFT", "Average_TPOT", "Args"] ∧
    (metrics_summary ⟨[1, 2, 3], [5], "m", "f", []⟩).lookup "Average_TTFT" =
      some (JVal.num 2) ∧
    (metrics_summary ⟨[1, 2, 3], [5], "m", "f", []⟩).lookup "Average_TPOT" =
      some (JVal.num (([5] : List ℚ).sum / ([5] : List ℚ).length)) :=
  ⟨(metrics_summary_shape ⟨[1, 2, 3], [5], "m", "f", []⟩).1,
   (metrics_summary_shape ⟨[1, 2, 3], [5], "m", "f", []⟩).2.2.2 rfl,
   (metrics_summary_shape ⟨[1, 2, 3], [5], "m", "f", []⟩).2.2.1 (by simp)⟩

/-! ## Claim C8 -/

/-- Claim C8: save_metrics does not modify the sink, and the serialized
summary is a deterministic function of the sample lists and the stored run
arguments; in particular calling it twice with nothing in between writes
identical summary content, and two sinks agreeing on samples and arguments
(the file name chosen at construction may differ) produce identical
summaries. -/
theorem save_metrics_idempotent (m : MetricsState) :
    (save_metrics (save_metrics m).2).1 = (save_metrics m).1 ∧
    (save_metrics m).2 = m ∧
    (∀ m' : MetricsState, m.TTFTs = m'.TTFTs → m.TPOTs = m'.TPOTs →
      m.args = m'.args → (save_metrics m).1 = (save_metrics m').1) := by
  refine ⟨rfl, rfl, ?_⟩
  intro m' h1 h2 h3
  simp [save_metrics, metrics_summary, h1, h2, h3]

/-- Witness for claim C8: two persists in a row on a concrete sink write
the same content, also when the second sink differs only in its file
name. -/
theorem save_metrics_idempotent_witness :
    (save_metrics (save_metrics ⟨[1], [2], "m", "f", []⟩).2).1 =
      (save_metrics ⟨[1], [2], "m", "f", []⟩).1 ∧
    (save_metrics ⟨[1], [2], "m", "f", []⟩).2 = ⟨[1], [2], "m", "f", []⟩ ∧
    (save_metrics ⟨[1], [2], "m", "f", []⟩).1 =
      (save_metrics ⟨[1], [2], "m", "g", []⟩).1 :=
  ⟨(save_metrics_idempotent ⟨[1], [2], "m", "f", []⟩).1,
   (save_metrics_idempotent ⟨[1], [2], "m", "f", []⟩).2.1,
   (save_metrics_idempotent ⟨[1], [2], "m", "f", []⟩).2.2
     ⟨[1], [2], "m", "g", []⟩ rfl rfl rfl⟩

/-! ## Claim C9 -/

/-- Claim C9: simulate_token_lists returns the empty list when token_length
or vocab_size is non-positive, and otherwise a list of exactly token_length
token ids each in the range 0 to vocab_size - 1, assuming the randint
contract that a draw between ordered bounds lies between them. -/
theorem simulate_token_lists_spec (rand : ℤ → ℤ → ℕ → ℤ)
    (hrand : ∀ lo hi i, lo ≤ hi → lo ≤ rand lo hi i ∧ rand lo hi i ≤ hi)
    (token_length vocab_size : ℤ) :
    (token_length ≤ 0 ∨ vocab_size ≤ 0 →
      simulate_token_lists rand token_length vocab_size = []) ∧
    (0 < token_length → 0 < vocab_size →
      (simulate_token_lists rand token_length vocab_size).length =
        token_length.toNat ∧
      ∀ x ∈ simulate_token_lists rand token_length vocab_size,
        0 ≤ x ∧ x ≤ vocab_size - 1) := by
  constructor
  · intro h
    simp [simulate_token_lists, h]
  · intro h1 h2
    have hcond : ¬(token_length ≤ 0 ∨ vocab_size ≤ 0) := by
      push_neg
      exact ⟨h1, h2⟩
    constructor
    · simp [simulate_token_lists, hcond]
    · intro x hx
      simp only [simulate_token_lists, hcond, if_false, List.mem_map] at hx
      obtain ⟨i, _, rfl⟩ := hx
      exact hrand 0 (vocab_size - 1) i (by omega)

/-- Witness for claim C9 with the oracle that always draws the lower bound,
token_length 3 and vocab_size 5. -/
theorem simulate_token_lists_witness :
    simulate_token_lists (fun lo _ _ => lo) (-1) 5 = [] ∧
    (simulate_token_lists (fun lo _ _ => lo) 3 5).length = (3 : ℤ).toNat ∧
    ∀ x ∈ simulate_token_lists (fun lo _ _ => lo) 3 5, 0 ≤ x ∧ x ≤ 5 - 1 :=
  ⟨(simulate_token_lists_spec (fun lo _ _ => lo)
      (fun _ _ _ h => ⟨le_refl _, h⟩) (-1) 5).1 (Or.inl (by norm_num)),
   (simulate_token_lists_spec (fun lo _ _ => lo)
      (fun _ _ _ h => ⟨le_refl _, h⟩) 3 5).2 (by norm_num) (by norm_num)⟩

/-! ## Claim C10 -/

/-- Claim C10: add_metrics reads only the TTFT and TPOT entries of its
dictionary argument, so entries under any other key (including Average_TTFT
and Average_TPOT) never change the state; an entry present with value None
is skipped; a non-None TTFT entry appends exactly that one value to the
TTFTs list, a non-None TPOT entry likewise to the TPOTs list; previously
recorded samples stay as a prefix and the remaining fields of the sink are
untouched. -/
theorem add_metrics_frame (m : MetricsState)
    (d d' : String → Option (Option ℚ)) (v : ℚ) :
    (d "TTFT" = d' "TTFT" → d "TPOT" = d' "TPOT" →
      add_metrics m d = add_metrics m d') ∧
    (d "TTFT" = some none → (add_metrics m d).TTFTs = m.TTFTs) ∧
    (d "TPOT" = some none → (add_metrics m d).TPOTs = m.TPOTs) ∧
    (d "TTFT" = none → (add_metrics m d).TTFTs = m.TTFTs) ∧
    (d "TPOT" = none → (add_metrics m d).TPOTs = m.TPOTs) ∧
    (d "TTFT" = some (some v) → (add_metrics m d).TTFTs = m.TTFTs ++ [v]) ∧
    (d "TPOT" = some (some v) → (add_metrics m d).TPOTs = m.TPOTs ++ [v]) ∧
    ((add_metrics m d).metric_dir = m.metric_dir ∧
     (add_metrics m d).metric_name = m.metric_name ∧
     (add_metrics m d).args = m.args) := by
  refine ⟨?_, ?_, ?_, ?_, ?_, ?_, ?_, ?_⟩
  · intro hT hP
    rw [add_metrics_eval, add_metrics_eval, hT, hP]
  · intro h
    rw [add_metrics_eval]
    simp [h]
  · intro h
    rw [add_metrics_eval]
    simp [h]
  · intro h
    rw [add_metrics_eval]
    simp [h]
  · intro h
    rw [add_metrics_eval]
    simp [h]
  · intro h
    rw [add_metrics_eval]
    simp [h]
  · intro h
    rw [add_metrics_eval]
    simp [h]
  · rw [add_metrics_eval]
    exact ⟨rfl, rfl, rfl⟩

/-- Witness for claim C10: on the sink holding samples 5 and 6, a
dictionary with TTFT 1, TPOT None and an unrelated Average_TTFT entry
appends only to TTFTs, and dropping the unrelated entry gives the same
state. -/
theorem add_metrics_frame_witness :
    add_metrics ⟨[5], [6], "m", "f", []⟩
        (fun s => if s = "TTFT" then some (some 1)
          else if s = "TPOT" then some none
          else if s = "Average_TTFT" then some (some 9) else none) =
      add_metrics ⟨[5], [6], "m", "f", []⟩
        (fun s => if s = "TTFT" then some (some 1)
          else if s = "TPOT" then some none else none) ∧
    (add_metrics ⟨[5], [6], "m", "f", []⟩
        (fun s => if s = "TTFT" then some (some 1)
          else if s = "TPOT" then some none
          else if s = "Average_TTFT" then some (some 9) else none)).TTFTs =
      [5] ++ [1] ∧
    (add_metrics ⟨[5], [6], "m", "f", []⟩
        (fun s => if s = "TTFT" then some (some 1)
          else if s = "TPOT" then some none
          else if s = "Average_TTFT" then some (some 9) else none)).TPOTs =
      [6] ∧
    (add_metrics ⟨[5], [6], "m", "f", []⟩
        (fun s => if s = "TTFT" then some (some 1)
          else if s = "TPOT" then some none
          else if s = "Average_TTFT" then some (some 9) else none)).args =
      [] :=
  ⟨(add_metrics_frame ⟨[5], [6], "m", "f", []⟩ _ _ 1).1 rfl rfl,
   (add_metrics_frame ⟨[5], [6], "m", "f", []⟩ _
      (fun _ => none) 1).2.2.2.2.2.1 rfl,
   (add_metrics_frame ⟨[5], [6], "m", "f", []⟩ _
      (fun _ => none) 1).2.2.1 rfl,
   (add_metrics_frame ⟨[5], [6], "m", "f", []⟩ _
      (fun _ => none) 1).2.2.2.2.2.2.2.2.2⟩

end RAGPulse
